import Mathlib

/-!
Shallow embedding of `app.py` (lemonpole/lemonpi-moisture-sensor).

The program is a polling loop (`SDIMoistureSensor.run`) that reads an ADC
value each tick, compares it with the previous reading, and invokes a
moisture-gain or moisture-loss handler; the handlers mutate two global
counters (`GAIN_COUNT`, `LOSS_COUNT`) and append log lines.  A layered
configuration resolver (`Config.get_config`) merges command-line arguments,
environment variables, an INI file and hard-coded defaults.  Logging is set
up by `init_logging` with a rotating file handler, and `send_email` sends a
notification over SMTP, swallowing `smtplib.SMTPException`.

Mutable global state (the two counters and the logger output) is modelled as
an explicit `AppState` record threaded through the functions; Python
exceptions are modelled with `Except`.
-/

/-- The three possible classifications of a reading against the previous
reading.  `gain` = value decreased, `loss` = value increased (`app.py`
lines 119-123); equal readings dispatch nothing. -/
inductive Transition where
  | none
  | gain
  | loss
deriving DecidableEq, Repr

/-- Global mutable state of `app.py`: the loop-local `prev_value`
(line 114), the global counters `GAIN_COUNT` / `LOSS_COUNT`
(lines 216-217, Python ints that start at 0 and are only incremented,
hence `Nat`), and the sequence of lines written through `LOGGER`
(colour escape codes omitted). -/
structure AppState where
  prev_value : Int
  gain_count : Nat
  loss_count : Nat
  log : List String
deriving Repr, DecidableEq

/-- State at program start: `prev_value = -1` (line 114),
`GAIN_COUNT = LOSS_COUNT = 0` (lines 216-217), nothing logged yet. -/
def initialAppState : AppState :=
  { prev_value := -1, gain_count := 0, loss_count := 0, log := [] }

/-- `handle_moisture_gain` (lines 257-267): increments `GAIN_COUNT` and
logs the detection line and the value line. -/
def handle_moisture_gain (value : Int) (s : AppState) : AppState :=
  { s with
    gain_count := s.gain_count + 1,
    log := s.log ++
      ["Moisture gain detected! (#" ++ toString (s.gain_count + 1) ++ ")",
       "Value: " ++ toString value] }

/-- `handle_moisture_loss` (lines 269-281): increments `LOSS_COUNT` and
logs the detection line and the value line.  The notification calls
`load_email_content()` / `send_email()` on lines 280-281 are commented
out in the source, so the handler performs no notification. -/
def handle_moisture_loss (value : Int) (s : AppState) : AppState :=
  { s with
    loss_count := s.loss_count + 1,
    log := s.log ++
      ["Moisture loss detected! (#" ++ toString (s.loss_count + 1) ++ ")",
       "Value: " ++ toString value] }

/-- One iteration of the `while True` body of `SDIMoistureSensor.run`
(lines 116-126), parameterised by the two handler slots
`_on_moisture_gain` / `_on_moisture_loss`, which are replaceable
attributes of the sensor object (lines 93-111): compare the fresh
`value` with `prev_value`, invoke the matching handler, then set
`prev_value = value`. -/
def SDIMoistureSensor.runStep (onGain onLoss : Int → AppState → AppState)
    (s : AppState) (value : Int) : AppState :=
  let s' :=
    if value ≠ s.prev_value then
      if value < s.prev_value then onGain value s
      else if value > s.prev_value then onLoss value s
      else s
    else s
  { s' with prev_value := value }

/-- The loop step with the handlers the program actually binds
(lines 289-290): `handle_moisture_gain` and `handle_moisture_loss`. -/
def runStep : AppState → Int → AppState :=
  SDIMoistureSensor.runStep handle_moisture_gain handle_moisture_loss

/-- Processing a finite sequence of ADC readings through the loop. -/
def runSensor (s : AppState) (values : List Int) : AppState :=
  values.foldl runStep s

/-- The transition-classification rule of the loop body (lines 119-123)
as a pure function of the pair (previous, current), keeping the source
structure: the outer `value != prev_value` test, then `<` for gain and
`>` for loss. -/
def classify (prev_value value : Int) : Transition :=
  if value ≠ prev_value then
    if value < prev_value then Transition.gain
    else if value > prev_value then Transition.loss
    else Transition.none
  else Transition.none

/-- The event-dispatch part of the loop body: given a classified
transition, invoke the matching bound handler (lines 119-123); a `none`
transition invokes nothing. -/
def dispatchWith (onGain onLoss : Int → AppState → AppState)
    (t : Transition) (value : Int) (s : AppState) : AppState :=
  match t with
  | Transition.none => s
  | Transition.gain => onGain value s
  | Transition.loss => onLoss value s

/-- Dispatch with the program-bound handlers. -/
def dispatch : Transition → Int → AppState → AppState :=
  dispatchWith handle_moisture_gain handle_moisture_loss

/-- A finite sequence of dispatches. -/
def dispatchSeq (l : List (Transition × Int)) (s : AppState) : AppState :=
  l.foldl (fun st p => dispatch p.1 p.2 st) s

/-- Loop processing that also records the classification of each
reading, for reasoning about transition traces. -/
def runTrace (s : AppState) (values : List Int) : AppState × List Transition :=
  match values with
  | [] => (s, [])
  | v :: rest =>
      let t := classify s.prev_value v
      let (s', ts) := runTrace (runStep s v) rest
      (s', t :: ts)

/-- The loop body is exactly: classify the pair, dispatch the result,
then update `prev_value`. -/
theorem runStep_eq_dispatch_classify (s : AppState) (v : Int) :
    runStep s v = { dispatch (classify s.prev_value v) v s with prev_value := v } := by
  unfold runStep SDIMoistureSensor.runStep dispatch dispatchWith classify
  by_cases h1 : v ≠ s.prev_value
  · by_cases h2 : v < s.prev_value
    · simp [h1, h2]
    · by_cases h3 : v > s.prev_value
      · simp [h1, h2, h3]
      · simp [h1, h2, h3]
  · simp [h1]

/-- Claim C1: the classification each loop iteration satisfies
`current < previous → Gain`, `current > previous → Loss`,
`current == previous → None`, and it is a function of the pair alone:
the loop step is dispatch of `classify prev_value value`, so no call
history beyond the pair enters the classification. -/
theorem classify_transition_rule (p c : Int) (s : AppState) :
    (c < p → classify p c = Transition.gain) ∧
    (c > p → classify p c = Transition.loss) ∧
    (c = p → classify p c = Transition.none) ∧
    runStep s c = { dispatch (classify s.prev_value c) c s with prev_value := c } := by
  refine ⟨?_, ?_, ?_, runStep_eq_dispatch_classify s c⟩
  · intro h
    simp [classify, h, ne_of_lt h]
  · intro h
    have hne : c ≠ p := ne_of_gt h
    have hnlt : ¬ c < p := not_lt_of_gt h
    simp [classify, hne, hnlt, h]
  · intro h
    simp [classify, h]

/-- Claim C1 witness: the rule evaluated on concrete pairs. -/
theorem classify_transition_rule_witness :
    classify 5 3 = Transition.gain ∧
    classify 3 5 = Transition.loss ∧
    classify 4 4 = Transition.none := by
  refine ⟨?_, ?_, ?_⟩
  · exact (classify_transition_rule 5 3 initialAppState).1 (by decide)
  · exact (classify_transition_rule 3 5 initialAppState).2.1 (by decide)
  · exact (classify_transition_rule 4 4 initialAppState).2.2.1 rfl

/-- Claim C2 counterexample: starting from `prev_value = -1`, the readings
[600, 600, 550, 700] do NOT produce the transitions
[Gain, None, Gain, Loss] with GainCount 2 and LossCount 1 that the claim
states.  (The first reading 600 satisfies 600 > -1, so it dispatches
Loss, not Gain.) -/
theorem scenario_trace_claim_false :
    ¬ ((runTrace initialAppState [600, 600, 550, 700]).2 =
         [Transition.gain, Transition.none, Transition.gain, Transition.loss] ∧
       (runTrace initialAppState [600, 600, 550, 700]).1.gain_count = 2 ∧
       (runTrace initialAppState [600, 600, 550, 700]).1.loss_count = 1) := by
  decide

/-- Claim C2 amended: from initial previous = -1, the readings
[600, 600, 550, 700] yield the transition sequence
[Loss, None, Gain, Loss] and leave GainCount = 1 and LossCount = 2. -/
theorem scenario_trace_actual :
    (runTrace initialAppState [600, 600, 550, 700]).2 =
      [Transition.loss, Transition.none, Transition.gain, Transition.loss] ∧
    (runTrace initialAppState [600, 600, 550, 700]).1.gain_count = 1 ∧
    (runTrace initialAppState [600, 600, 550, 700]).1.loss_count = 2 := by
  decide

/-- A single dispatch never decreases either counter. -/
theorem dispatch_counter_le (t : Transition) (v : Int) (s : AppState) :
    s.gain_count ≤ (dispatch t v s).gain_count ∧
    s.loss_count ≤ (dispatch t v s).loss_count := by
  cases t
  · exact ⟨le_refl _, le_refl _⟩
  · exact ⟨Nat.le_succ _, le_refl _⟩
  · exact ⟨le_refl _, Nat.le_succ _⟩

/-- Claim C6: across every sequence of dispatches both counters are
non-decreasing, and a single non-None dispatch increments exactly the
matching counter by exactly 1, leaving the other unchanged. -/
theorem dispatch_counter_monotone (v : Int) (s : AppState)
    (l : List (Transition × Int)) :
    s.gain_count ≤ (dispatchSeq l s).gain_count ∧
    s.loss_count ≤ (dispatchSeq l s).loss_count ∧
    (dispatch Transition.gain v s).gain_count = s.gain_count + 1 ∧
    (dispatch Transition.gain v s).loss_count = s.loss_count ∧
    (dispatch Transition.loss v s).loss_count = s.loss_count + 1 ∧
    (dispatch Transition.loss v s).gain_count = s.gain_count := by
  refine ⟨?_, ?_, ?_, ?_, ?_, ?_⟩
  · induction l generalizing s with
    | nil => exact le_refl _
    | cons p rest ih =>
        exact le_trans (dispatch_counter_le p.1 p.2 s).1 (ih _)
  · induction l generalizing s with
    | nil => exact le_refl _
    | cons p rest ih =>
        exact le_trans (dispatch_counter_le p.1 p.2 s).2 (ih _)
  · simp [dispatch, dispatchWith, handle_moisture_gain]
  · simp [dispatch, dispatchWith, handle_moisture_gain]
  · simp [dispatch, dispatchWith, handle_moisture_loss]
  · simp [dispatch, dispatchWith, handle_moisture_loss]

/-- Claim C7: dispatching a None transition is a no-op for every state,
every reading value and EVERY pair of bound handlers (so no handler is
invoked and no counter is mutated), and repeating it any number of
times leaves the state identical. -/
theorem dispatch_none_noop (onGain onLoss : Int → AppState → AppState)
    (v : Int) (s : AppState) (n : Nat) :
    dispatchWith onGain onLoss Transition.none v s = s ∧
    (fun st => dispatchWith onGain onLoss Transition.none v st)^[n] s = s := by
  constructor
  · rfl
  · induction n with
    | zero => rfl
    | succ k ih =>
        rw [Function.iterate_succ_apply', ih]
        rfl

/-- Claim C10: on the first loop iteration the previous value is the
sentinel -1, so every reading v ≥ 0 satisfies v > -1 and dispatches the
loss handler (LossCount becomes 1, GainCount stays 0, so the gain
handler was not invoked); and the only first reading dispatching
nothing is exactly -1. -/
theorem first_reading_classified_loss (v : Int) :
    (0 ≤ v →
      classify (-1) v = Transition.loss ∧
      (runStep initialAppState v).loss_count = 1 ∧
      (runStep initialAppState v).gain_count = 0) ∧
    (classify (-1) v = Transition.none ↔ v = -1) := by
  constructor
  · intro h
    have hgt : v > (-1 : Int) := by omega
    have hne : v ≠ (-1 : Int) := by omega
    have hnlt : ¬ v < (-1 : Int) := by omega
    refine ⟨by simp [classify, hne, hnlt, hgt], ?_, ?_⟩
    · simp [runStep, SDIMoistureSensor.runStep, initialAppState, hne, hnlt, hgt,
        handle_moisture_loss]
    · simp [runStep, SDIMoistureSensor.runStep, initialAppState, hne, hnlt, hgt,
        handle_moisture_loss]
  · constructor
    · intro h
      by_contra hne
      by_cases hlt : v < (-1 : Int)
      · simp [classify, hne, hlt] at h
      · have hgt : v > (-1 : Int) := by omega
        simp [classify, hne, hlt, hgt] at h
    · intro h
      simp [classify, h]

/-- Claim C10 witness: the first reading 600 dispatches the loss
handler, and reading -1 is the unique silent first reading. -/
theorem first_reading_classified_loss_witness :
    (classify (-1) 600 = Transition.loss ∧
     (runStep initialAppState 600).loss_count = 1 ∧
     (runStep initialAppState 600).gain_count = 0) ∧
    (classify (-1) (-1) = Transition.none ↔ (-1 : Int) = -1) :=
  ⟨(first_reading_classified_loss 600).1 (by decide),
   (first_reading_classified_loss (-1)).2⟩

/-- Outcome of the SMTP session attempted by `send_email`
(lines 247-251: connect, `starttls`, `login`, `sendmail`, `quit`); any
of those steps may raise `smtplib.SMTPException`. -/
inductive SmtpResult where
  | delivered
  | smtpException
deriving DecidableEq, Repr

/-- Marker for the raised `smtplib.SMTPException`. -/
inductive SmtpError where
  | smtpException
deriving DecidableEq, Repr

/-- The body of the `try` block of `send_email` (lines 247-251),
collapsed to the outcome of the SMTP transport. -/
def smtp_session (transport : SmtpResult) : Except SmtpError Unit :=
  match transport with
  | SmtpResult.delivered => Except.ok ()
  | SmtpResult.smtpException => Except.error SmtpError.smtpException

/-- `send_email` (lines 245-255): runs the SMTP session inside
`try/except smtplib.SMTPException`; on success it prints the success
line, on an SMTP failure it prints the error line.  The return type has
no error component: the exception never escapes the function. -/
def send_email (transport : SmtpResult) : List String :=
  match smtp_session transport with
  | Except.ok _ => ["Successfully sent email."]
  | Except.error _ => ["ERROR: Unable to send email!"]

/-- Claim C8: an SMTP failure while notifying is absorbed inside
`send_email` (the function returns the printed warning line instead of
propagating an error), and the polling loop goes on to process the next
reading: consuming a reading leaves the rest of the sequence to be
processed by the unchanged fold, independent of any notification
outcome, with counters untouched by `send_email` (its type reaches no
`AppState`). -/
theorem notification_failure_nonfatal (transport : SmtpResult)
    (s : AppState) (v : Int) (vs : List Int) :
    (send_email transport).length = 1 ∧
    (transport = SmtpResult.smtpException →
      send_email transport = ["ERROR: Unable to send email!"]) ∧
    runSensor s (v :: vs) = runSensor (runStep s v) vs := by
  refine ⟨?_, ?_, rfl⟩
  · cases transport <;> rfl
  · intro h
    rw [h]
    rfl

/-- Claim C8 witness: a failing SMTP transport yields the warning line
and the loop still processes the next reading. -/
theorem notification_failure_nonfatal_witness :
    (send_email SmtpResult.smtpException).length = 1 ∧
    (SmtpResult.smtpException = SmtpResult.smtpException →
      send_email SmtpResult.smtpException = ["ERROR: Unable to send email!"]) ∧
    runSensor initialAppState (600 :: [550]) =
      runSensor (runStep initialAppState 600) [550] :=
  notification_failure_nonfatal SmtpResult.smtpException initialAppState 600 [550]

/-- The rotating file handler created by `init_logging` (line 231):
`logging.handlers.RotatingFileHandler` with its byte threshold and
backup count. -/
structure RotatingFileHandler where
  maxBytes : Int
  backupCount : Nat
deriving DecidableEq, Repr

/-- The logger configuration produced by `init_logging`: an optional
rotating file handler (added only when `LOG_ENABLE` is true) and the
always-added stdout `StreamHandler` (lines 235-237). -/
structure LoggerSetup where
  fileHandler : Option RotatingFileHandler
  streamHandler : Bool
deriving DecidableEq, Repr

/-- `init_logging` (lines 228-238): when logging is enabled it attaches
a `RotatingFileHandler` with `maxBytes = (1024*1024) * LOG_MAXSIZE` and
`backupCount = 10`, and it always attaches a stdout stream handler. -/
def init_logging (log_enable : Bool) (log_maxsize : Int) : LoggerSetup :=
  { fileHandler :=
      if log_enable then
        some { maxBytes := (1024 * 1024) * log_maxsize, backupCount := 10 }
      else Option.none,
    streamHandler := true }

/-- Claim C9 counterexample: with the log-max-size setting at its
default 100, the byte limit handed to the rotating file handler is
104857600 = 1024 * 1024 * 100, not 1024 * 100 as the claim (reading the
setting as kilobytes) states. -/
theorem log_rotation_kb_claim_false :
    ¬ ((init_logging true 100).fileHandler.map RotatingFileHandler.maxBytes =
        some (1024 * 100)) := by
  decide

/-- Claim C9 amended: for every resolved value n of the log-max-size
setting, the rotation threshold handed to the rotating file handler is
1024 * 1024 * n bytes (the code multiplies by a megabyte, so n is
interpreted as megabytes, not kilobytes), at most 10 rotated files are
kept, and a stdout stream handler mirrors every entry. -/
theorem log_rotation_actual (n : Int) (b : Bool) :
    (init_logging true n).fileHandler =
      some { maxBytes := 1024 * 1024 * n, backupCount := 10 } ∧
    (init_logging false n).fileHandler = Option.none ∧
    (init_logging b n).streamHandler = true := by
  refine ⟨?_, rfl, ?_⟩
  · simp [init_logging]
  · cases b <;> rfl

/-- Python exceptions that the configuration code can raise:
`ConfigParser.read` raises a parsing error on a malformed file,
`ConfigParser.get` raises `NoSectionError` / `NoOptionError` when the
section or option is missing, and `ConfigParser.getboolean` raises
`ValueError` on a non-boolean string. -/
inductive PyError where
  | parsingError
  | noSectionOrOption
  | valueError
deriving DecidableEq, Repr

/-- A value returned by `get_config`: every branch returns `str(...)`
except the `ini_bool` branch, which returns the Python bool produced by
`ConfigParser.getboolean` (line 153). -/
inductive ConfigValue where
  | s (v : String)
  | b (v : Bool)
deriving DecidableEq, Repr

/-- The three configuration sources held by a `Config` object
(lines 129-133): the parsed argparse namespace (`self.args`, attribute
names are lower-case, absent or unsupplied attributes read as `None`),
the process environment (`os.environ`), and the data the
`ConfigParser` holds after `read` (section → option → value; the
parser lower-cases option names via `optionxform`). -/
structure Config where
  args : String → Option String
  env : String → Option String
  iniData : String → String → Option String

/-- The file handed to `ConfigParser.read` in `Config.__init__`
(line 133): missing, unparseable, or parsed section/option data. -/
inductive IniFile where
  | absent
  | malformed
  | parsed (data : String → String → Option String)

/-- `Config.__init__` (lines 129-133), with the Python 2
`ConfigParser.read` semantics for the file at `ini_fullpath`: a file
that cannot be opened is silently ignored (the parser simply holds no
sections), while a file that opens but cannot be parsed raises, and
nothing in `__init__` catches that, so construction fails. -/
def Config.init (args env : String → Option String) (f : IniFile) :
    Except PyError Config :=
  match f with
  | IniFile.malformed => Except.error PyError.parsingError
  | IniFile.absent => Except.ok ⟨args, env, fun _ _ => Option.none⟩
  | IniFile.parsed d => Except.ok ⟨args, env, d⟩

/-- Python `str.lower()` on ASCII setting names, as applied by
`name.lower()` on line 145 and by `optionxform` inside `ConfigParser`. -/
def pyLower (s : String) : String :=
  ⟨s.data.map Char.toLower⟩

/-- The Python 2 `ConfigParser._boolean_states` table used by
`getboolean`: 1/yes/true/on are true, 0/no/false/off are false, any
other string raises `ValueError`. -/
def boolean_states (v : String) : Option Bool :=
  if pyLower v = "1" ∨ pyLower v = "yes" ∨ pyLower v = "true" ∨ pyLower v = "on" then
    some true
  else if pyLower v = "0" ∨ pyLower v = "no" ∨ pyLower v = "false" ∨ pyLower v = "off" then
    some false
  else Option.none

/-- `Config.get_config` (lines 135-157): try the command-line argument
(line 145, attribute `name.lower()`), then the environment variable
(line 148, key `name` as given), then the INI file (line 151,
`config_parser.get(ini_section, name)`), finally the default
(line 157).  In Python 2 any `str` compares greater than the int -1, so
the guard `... > -1` on line 151 holds for every value the parser
returns; when the section or option is missing, `config_parser.get`
raises instead of falling through, and nothing catches it. -/
def Config.get_config (c : Config) (name default_val : String)
    (cmd_line env_var ini : Bool) (ini_section : String) (ini_bool : Bool) :
    Except PyError ConfigValue :=
  match (if cmd_line then c.args (pyLower name) else Option.none) with
  | some v => Except.ok (ConfigValue.s v)
  | Option.none =>
    match (if env_var then c.env name else Option.none) with
    | some v => Except.ok (ConfigValue.s v)
    | Option.none =>
      if ini then
        match c.iniData ini_section (pyLower name) with
        | Option.none => Except.error PyError.noSectionOrOption
        | some v =>
            if ini_bool then
              match boolean_states v with
              | some b => Except.ok (ConfigValue.b b)
              | Option.none => Except.error PyError.valueError
            else Except.ok (ConfigValue.s v)
      else Except.ok (ConfigValue.s default_val)

/-- A source with no values, for configurations where arguments or
environment variables are absent. -/
def noValues : String → Option String := fun _ => Option.none

/-- The `Config` obtained when no argument was passed, no environment
variable is set, and the INI file is absent. -/
def emptyConfig : Config := ⟨noValues, noValues, fun _ _ => Option.none⟩

/-- Claim C3: whenever the command-line source is enabled and the
argparse namespace holds a value for the setting, `get_config` returns
that value, whatever the environment, INI data or default would give:
the remaining sources are never consulted. -/
theorem cmdline_arg_precedence (c : Config) (name default_val ini_section v : String)
    (env_var ini ini_bool : Bool)
    (h : c.args (pyLower name) = some v) :
    Config.get_config c name default_val true env_var ini ini_section ini_bool =
      Except.ok (ConfigValue.s v) := by
  simp [Config.get_config, h]

/-- A configuration where the argument, the environment and the INI
file all hold (different) values for CHANNEL. -/
def argConfig : Config :=
  ⟨fun n => if n = "channel" then some "3" else Option.none,
   fun _ => some "9",
   fun _ _ => some "5"⟩

/-- Claim C3 witness: with argument 3, environment 9 and INI value 5
all present, `get_config` returns the argument value 3. -/
theorem cmdline_arg_precedence_witness :
    Config.get_config argConfig "CHANNEL" "0" true true true "IO" false =
      Except.ok (ConfigValue.s "3") :=
  cmdline_arg_precedence argConfig "CHANNEL" "0" "IO" "3" true true false (by decide)

/-- Claim C4 counterexample: with no argument, no environment variable
and an empty INI source, `get_config` for CHANNEL (argument and
environment and INI all enabled, as every call in the program enables
INI) does NOT return the default "0" — the uncaught
`ConfigParser.get` exception escapes instead, refuting the clause
"if no enabled source yields a value, it returns the declared
default". -/
theorem default_fallback_claim_false :
    Config.get_config emptyConfig "CHANNEL" "0" true true true "IO" false ≠
      Except.ok (ConfigValue.s "0") :=
  fun h => Except.noConfusion h

/-- Claim C4 amended: if no explicit argument is supplied but the
environment variable is set (both sources enabled), `get_config`
returns the environment value in preference to any INI value and the
default; and if no enabled source yields a value, it returns the
declared default PROVIDED the INI source is disabled for the setting —
when the INI source is enabled and the parser lacks the section or
option, `ConfigParser.get` raises instead of falling through to the
default. -/
theorem env_precedence_amended (c : Config)
    (name default_val ini_section : String) (cmd_line ini ini_bool : Bool)
    (hargs : c.args (pyLower name) = Option.none) :
    (∀ v, c.env name = some v →
      Config.get_config c name default_val cmd_line true ini ini_section ini_bool =
        Except.ok (ConfigValue.s v)) ∧
    (c.env name = Option.none →
      Config.get_config c name default_val cmd_line true false ini_section ini_bool =
        Except.ok (ConfigValue.s default_val)) := by
  constructor
  · intro v hv
    cases cmd_line <;> simp [Config.get_config, hargs, hv]
  · intro henv
    cases cmd_line <;> simp [Config.get_config, hargs, henv]

/-- A configuration with no argument, an environment value 7 for
CHANNEL, and an INI value 5 for every key. -/
def envConfig : Config :=
  ⟨noValues,
   fun n => if n = "CHANNEL" then some "7" else Option.none,
   fun _ _ => some "5"⟩

/-- Claim C4 witness: the environment value 7 beats the INI value 5,
and with every source empty and INI disabled the default 0 comes
back. -/
theorem env_precedence_amended_witness :
    Config.get_config envConfig "CHANNEL" "0" true true true "IO" false =
      Except.ok (ConfigValue.s "7") ∧
    Config.get_config emptyConfig "CHANNEL" "0" true true false "IO" false =
      Except.ok (ConfigValue.s "0") :=
  ⟨(env_precedence_amended envConfig "CHANNEL" "0" "IO" true true false
      (by decide)).1 "7" (by decide),
   (env_precedence_amended emptyConfig "CHANNEL" "0" "IO" true true false
      (by decide)).2 (by decide)⟩

/-- Claim C5 (evaluating the code at the failing inputs): a malformed
INI file makes `Config.__init__` itself raise (the `ConfigParser.read`
parsing error is uncaught), and with the INI file merely absent the
construction succeeds but the first `get_config` call with the INI
source enabled — every call in the program enables it — raises
`NoSectionError` instead of returning the declared default. -/
theorem ini_absent_or_malformed_crash :
    Config.init noValues noValues IniFile.malformed =
      Except.error PyError.parsingError ∧
    Config.init noValues noValues IniFile.absent = Except.ok emptyConfig ∧
    Config.get_config emptyConfig "CHANNEL" "0" true true true "IO" false =
      Except.error PyError.noSectionOrOption := by
  exact ⟨rfl, rfl, rfl⟩
